import Mathlib

/-!
Shallow embedding of `src/tools/task_monitor_tool.py` from the
`data_ops_agent` repository: the two tool functions `task_monitor`
(task-store query with lazy bootstrap) and `task_log_reader` (log tail
with sample bootstrap), together with theorems checking the
natural-language specification against them.

The filesystem is modelled explicitly: the task store file
`assets/task_data.json` is a `StoreContent` option (present/absent, and
when present either valid JSON or malformed), the log directory is a map
from task id to the raw text of `logs/<task_id>.log`.  Each function
takes the filesystem state and returns the new state together with its
result; a Python exception escaping the function is an `Except.error`.
-/

namespace DataOps

/-- One record of `assets/task_data.json` (a `TaskRecord` of the spec).
Field names and types follow the sample dataset in the source. -/
structure TaskRecord where
  task_id : String
  task_name : String
  status : String
  start_time : Option String
  end_time : Option String
  duration : Option Nat
  data_count : Option Nat
  log_path : String
  error_msg : Option String
deriving DecidableEq, Repr

/-- First sample record (`task_001`, status `success`). -/
def task_rec_1 : TaskRecord :=
  { task_id := "task_001", task_name := "用户数据同步", status := "success",
    start_time := some "2025-06-17 08:00:00", end_time := some "2025-06-17 08:15:30",
    duration := some 930, data_count := some 1500000,
    log_path := "logs/task_001.log", error_msg := none }

/-- Second sample record (`task_002`, status `failed`). -/
def task_rec_2 : TaskRecord :=
  { task_id := "task_002", task_name := "订单数据清洗", status := "failed",
    start_time := some "2025-06-17 08:30:00", end_time := some "2025-06-17 08:45:20",
    duration := some 920, data_count := some 850000,
    log_path := "logs/task_002.log", error_msg := some "NullPointerException at DataProcessor.clean()" }

/-- Third sample record (`task_003`, status `running`). -/
def task_rec_3 : TaskRecord :=
  { task_id := "task_003", task_name := "销售报表生成", status := "running",
    start_time := some "2025-06-17 09:00:00", end_time := none,
    duration := none, data_count := none,
    log_path := "logs/task_003.log", error_msg := none }

/-- Fourth sample record (`task_004`, status `pending`). -/
def task_rec_4 : TaskRecord :=
  { task_id := "task_004", task_name := "产品库存校验", status := "pending",
    start_time := none, end_time := none,
    duration := none, data_count := none,
    log_path := "logs/task_004.log", error_msg := none }

/-- The fixed four-record sample dataset written by the bootstrap of
`task_monitor` (the `"tasks"` list of `sample_data` in the source). -/
def sample_tasks : List TaskRecord := [task_rec_1, task_rec_2, task_rec_3, task_rec_4]

/-- The `"summary"` object of the full-listing result of `task_monitor`. -/
structure Summary where
  total : Nat
  success : Nat
  failed : Nat
  running : Nat
  pending : Nat
deriving DecidableEq, Repr

/-- The summary computed in the full-listing branch of `task_monitor`:
`len(tasks)` plus one `len([t for t in tasks if t["status"] == s])`
count per fixed status literal. -/
def mk_summary (tasks : List TaskRecord) : Summary :=
  { total := tasks.length,
    success := (tasks.filter (fun t => t.status == "success")).length,
    failed := (tasks.filter (fun t => t.status == "failed")).length,
    running := (tasks.filter (fun t => t.status == "running")).length,
    pending := (tasks.filter (fun t => t.status == "pending")).length }

/-- The JSON object serialized (via `json.dumps`) by a normal return of
`task_monitor`.  Each constructor is one of its four `return` statements:
the fields recorded here are exactly the keys of the dict passed to
`json.dumps` there, so `taskNotFound` (keys `success:false, message`)
has no task field, and so on. -/
inductive TMResult where
  | taskFound (task : TaskRecord) (message : String)
  | taskNotFound (message : String)
  | filtered (tasks : List TaskRecord) (count : Nat) (message : String)
  | listing (tasks : List TaskRecord) (count : Nat) (summary : Summary) (message : String)
deriving DecidableEq, Repr

/-- The value of the `"success"` key of the serialized JSON object. -/
def TMResult.success : TMResult → Bool
  | .taskFound _ _ => true
  | .taskNotFound _ => false
  | .filtered _ _ _ => true
  | .listing _ _ _ _ => true

/-- The `"success"` key of a `task_monitor` outcome: `none` when the call
raised instead of returning a JSON string. -/
def except_success : Except String TMResult → Option Bool
  | .ok r => some r.success
  | .error _ => none

/-- Content of the task store file `assets/task_data.json`: either valid
JSON carrying a `"tasks"` list, valid JSON in which `data.get("tasks", [])`
yields the default `[]`, or text that `json.load` rejects. -/
inductive StoreContent where
  | validTasks (tasks : List TaskRecord)
  | validNoTasks
  | malformed (raw : String)
deriving DecidableEq, Repr

/-- Filesystem state seen by the two tools: the store file (if present)
and, for each task id, the raw text of `logs/<task_id>.log` (if present). -/
structure FS where
  store : Option StoreContent
  logs : String → Option String

/-- `json.load` on the store file followed by `data.get("tasks", [])`.
A malformed file raises `json.JSONDecodeError` (propagated, hence
`Except.error`); a missing file would raise `FileNotFoundError`. -/
def read_store : Option StoreContent → Except String (List TaskRecord)
  | some (.validTasks ts) => .ok ts
  | some .validNoTasks => .ok []
  | some (.malformed raw) => .error s!"json.JSONDecodeError: {raw}"
  | none => .error "FileNotFoundError"

/-- Python truthiness of an `Optional[str]` argument, as tested by
`if task_id:` / `if status:`: `None` and `""` are falsy. -/
def truthy : Option String → Bool
  | none => false
  | some s => !(s == "")

/-- Message of the found-task result of `task_monitor`. -/
def found_message (tid : String) : String := s!"成功获取任务 {tid} 的信息"

/-- Message of the id-not-found result of `task_monitor`. -/
def notfound_message (tid : String) : String := s!"未找到任务ID为 {tid} 的任务"

/-- Message of the status-filter result of `task_monitor`. -/
def filtered_message (n : Nat) (st : String) : String := s!"筛选出 {n} 个状态为 {st} 的任务"

/-- Message of the full-listing result of `task_monitor`. -/
def listing_message (n : Nat) : String := s!"当前共有 {n} 个批量任务"

/-- Message of the successful read result of `task_log_reader`. -/
def log_message (tid : String) (n : Nat) : String := s!"成功读取任务 {tid} 的日志，共 {n} 行"

/-- The bare unknown-id error string of `task_log_reader`. -/
def log_notfound_message (tid : String) : String := s!"错误：未找到任务 {tid} 的日志文件"

/-- The branch structure of `task_monitor` after the store has been read:
point lookup by id, status filter, or full listing with summary. -/
def task_monitor_core (tasks : List TaskRecord) (task_id status : Option String) : TMResult :=
  if truthy task_id then
    let tid := task_id.getD ""
    match tasks.find? (fun t => t.task_id == tid) with
    | some t => .taskFound t (found_message tid)
    | none => .taskNotFound (notfound_message tid)
  else if truthy status then
    let st := status.getD ""
    let filtered_tasks := tasks.filter (fun t => t.status == st)
    .filtered filtered_tasks filtered_tasks.length (filtered_message filtered_tasks.length st)
  else
    .listing tasks tasks.length (mk_summary tasks) (listing_message tasks.length)

/-- The tool function `task_monitor`: bootstrap the store file with the
sample dataset if absent, then load it and dispatch on the arguments.
Returns the new filesystem and the outcome (`.error` = exception). -/
def task_monitor (fs : FS) (task_id status : Option String) : FS × Except String TMResult :=
  let fs1 : FS := if fs.store.isNone
    then { fs with store := some (StoreContent.validTasks sample_tasks) } else fs
  match read_store fs1.store with
  | .error e => (fs1, .error e)
  | .ok tasks => (fs1, .ok (task_monitor_core tasks task_id status))

/-- The fixed sample transcript written for `task_001` on log bootstrap. -/
def sample_log_1 : String :=
  "[2025-06-17 08:00:00] INFO  Task started: task_001 (用户数据同步)\n[2025-06-17 08:00:05] INFO  Connecting to database...\n[2025-06-17 08:00:10] INFO  Database connected successfully\n[2025-06-17 08:00:15] INFO  Starting data extraction...\n[2025-06-17 08:05:00] INFO  Extracted 500000 records\n[2025-06-17 08:10:00] INFO  Extracted 1000000 records\n[2025-06-17 08:12:00] INFO  Data transformation started\n[2025-06-17 08:14:00] INFO  Transformation completed\n[2025-06-17 08:15:00] INFO  Loading data to target system...\n[2025-06-17 08:15:30] INFO  Task completed successfully. Total records: 1500000\n"

/-- The fixed sample transcript written for `task_002` on log bootstrap. -/
def sample_log_2 : String :=
  "[2025-06-17 08:30:00] INFO  Task started: task_002 (订单数据清洗)\n[2025-06-17 08:30:05] INFO  Initializing DataProcessor...\n[2025-06-17 08:30:10] INFO  Loading order data...\n[2025-06-17 08:35:00] INFO  Data loaded: 850000 records\n[2025-06-17 08:35:10] INFO  Starting data cleaning...\n[2025-06-17 08:40:00] INFO  Cleaning step 1/3 completed\n[2025-06-17 08:42:00] ERROR Exception occurred: NullPointerException\n[2025-06-17 08:42:00] ERROR   at DataProcessor.clean(DataProcessor.java:245)\n[2025-06-17 08:42:00] ERROR   at DataProcessor.run(DataProcessor.java:120)\n[2025-06-17 08:42:00] ERROR Task failed due to exception\n[2025-06-17 08:45:20] INFO  Task terminated\n"

/-- The fixed sample transcript written for `task_003` on log bootstrap. -/
def sample_log_3 : String :=
  "[2025-06-17 09:00:00] INFO  Task started: task_003 (销售报表生成)\n[2025-06-17 09:00:05] INFO  Querying sales data from database...\n[2025-06-17 09:05:00] INFO  Processing sales data...\n[2025-06-17 09:10:00] INFO  Generating report charts...\n[2025-06-17 09:12:00] INFO  Task is still running...\n"

/-- The `sample_logs` dict of the source: the three known sample ids and
their transcripts; `none` = `task_id not in sample_logs`. -/
def sample_logs (task_id : String) : Option String :=
  if task_id = "task_001" then some sample_log_1
  else if task_id = "task_002" then some sample_log_2
  else if task_id = "task_003" then some sample_log_3
  else none

/-- Splits a character list into lines, each keeping its trailing
newline, the way Python `readlines` does (`acc` holds the current line
reversed). -/
def split_lines_aux : List Char → List Char → List (List Char)
  | [], [] => []
  | [], acc => [acc.reverse]
  | c :: rest, acc =>
    if c = '\n' then (c :: acc).reverse :: split_lines_aux rest []
    else split_lines_aux rest (c :: acc)

/-- Python `f.readlines()`: the lines of the text, newlines kept, a last
unterminated fragment kept too. -/
def readlines (s : String) : List String :=
  (split_lines_aux s.data []).map (fun l => String.mk l)

/-- Python list slice `xs[i:]` for an arbitrary (possibly negative)
integer start index. -/
def py_slice_from (xs : List String) (i : Int) : List String :=
  let n : Int := xs.length
  let start : Int := if i < 0 then max (n + i) 0 else min i n
  xs.drop start.toNat

/-- The string returned by `task_log_reader` (always a Python `str`):
either the bare unknown-id error string, the serialized success JSON
object (keys `success:true, task_id, log_lines, log_content, message`),
or the serialized failure object of the `except` branch. -/
inductive LRResult where
  | bare (msg : String)
  | ok (task_id : String) (log_lines : Nat) (log_content : String) (message : String)
  | err (message : String)
deriving DecidableEq, Repr

/-- Whether the returned string is a serialized JSON `success`/`message`
envelope (as opposed to the bare unknown-id error string). -/
def LRResult.isJsonEnvelope : LRResult → Bool
  | .bare _ => false
  | .ok _ _ _ _ => true
  | .err _ => true

/-- The read of `task_log_reader` on an existing log file: `readlines`,
then `all_lines[-lines:] if lines < len(all_lines) else all_lines`,
then join. -/
def read_log_content (task_id : String) (lines : Int) (content : String) : LRResult :=
  let all_lines := readlines content
  let last_lines := if lines < (all_lines.length : Int)
    then py_slice_from all_lines (-lines) else all_lines
  .ok task_id last_lines.length (String.join last_lines) (log_message task_id last_lines.length)

/-- The tool function `task_log_reader`: if `logs/<task_id>.log` is
absent, write the sample transcript when the id is a known sample id and
otherwise return the bare error string; then read the file and return
the tail. -/
def task_log_reader (fs : FS) (task_id : String) (lines : Int) : FS × LRResult :=
  match fs.logs task_id with
  | some content => (fs, read_log_content task_id lines content)
  | none =>
    match sample_logs task_id with
    | some sample =>
      let fs1 : FS := { fs with logs := fun i => if i = task_id then some sample else fs.logs i }
      (fs1, read_log_content task_id lines sample)
    | none => (fs, .bare (log_notfound_message task_id))

/-- A filesystem whose store file holds the given tasks and which has no
log files. -/
def store_fs (ts : List TaskRecord) : FS := ⟨some (StoreContent.validTasks ts), fun _ => none⟩

/-- A filesystem with no store file and no log files. -/
def empty_fs : FS := ⟨none, fun _ => none⟩

/-- A filesystem with no store file and a single log file for `task_id`
with the given raw text. -/
def log_fs (task_id content : String) : FS :=
  ⟨none, fun i => if i = task_id then some content else none⟩

/-- Specification-side formulation of "the last `lines` lines of the
file": the trailing `min lines total` lines of `readlines content`. -/
def tail_lines (content : String) (lines : Int) : List String :=
  let ls := readlines content
  ls.drop (ls.length - min lines.toNat ls.length)

/-! Helper lemmas shared by the claim theorems. -/

/-- `List.find?` returns the matching element when it is unique. -/
theorem find_eq_some_of_unique {α : Type} (p : α → Bool) (r : α) :
    ∀ l : List α, r ∈ l → p r = true → (∀ x ∈ l, p x = true → x = r) →
      l.find? p = some r := by
  intro l
  induction l with
  | nil => intro h; simp at h
  | cons a t ih =>
    intro hmem hp huniq
    by_cases ha : p a = true
    · rw [List.find?_cons_of_pos _ ha, huniq a (List.mem_cons_self a t) ha]
    · have hr : r ∈ t := by
        rcases List.mem_cons.mp hmem with h | h
        · exact absurd (h ▸ hp) ha
        · exact h
      rw [List.find?_cons_of_neg _ ha]
      exact ih hr hp (fun x hx hpx => huniq x (List.mem_cons_of_mem _ hx) hpx)

/-- Flattening the line split reproduces the character list. -/
theorem split_lines_aux_flatten :
    ∀ (cs acc : List Char), (split_lines_aux cs acc).flatten = acc.reverse ++ cs := by
  intro cs
  induction cs with
  | nil => intro acc; cases acc <;> simp [split_lines_aux]
  | cons c rest ih =>
    intro acc
    by_cases hc : c = '\n' <;>
      simp [split_lines_aux, hc, ih]

/-- Folding string append over `String.mk` of character lists is
`String.mk` of the flattened list. -/
theorem foldl_append_mk :
    ∀ (l : List (List Char)) (s : String),
      (l.map (fun c => String.mk c)).foldl (fun a b => a ++ b) s = String.mk (s.data ++ l.flatten) := by
  intro l
  induction l with
  | nil => intro s; cases s; simp
  | cons a t ih =>
    intro s
    simp only [List.map_cons, List.foldl_cons, List.flatten_cons, ih]
    have : (s ++ String.mk a).data = s.data ++ a := String.data_append s (String.mk a)
    rw [this, List.append_assoc]

/-- `readlines` decomposes the text verbatim: joining the lines gives
back the original string. -/
theorem join_readlines (s : String) : String.join (readlines s) = s := by
  have h := foldl_append_mk (split_lines_aux s.data []) ""
  have h2 := split_lines_aux_flatten s.data []
  simp only [List.reverse_nil, List.nil_append] at h2
  simp only [String.join, readlines, h, h2]
  cases s; rfl

/-- For a positive `lines` argument, the slice computed by
`task_log_reader` is exactly the trailing `min lines total` lines. -/
theorem last_lines_eq (ls : List String) (lines : Int) (hpos : 1 ≤ lines) :
    (if lines < (ls.length : Int) then py_slice_from ls (-lines) else ls) =
      ls.drop (ls.length - min lines.toNat ls.length) := by
  by_cases h : lines < (ls.length : Int)
  · rw [if_pos h]
    simp only [py_slice_from]
    have hneg : -lines < 0 := by omega
    rw [if_pos hneg]
    congr 1
    omega
  · rw [if_neg h]
    have : ls.length - min lines.toNat ls.length = 0 := by omega
    rw [this, List.drop_zero]

/-- For a non-negative start index, the Python slice `xs[i:]` is `drop`. -/
theorem py_slice_from_nonneg (xs : List String) (i : Int) (h : 0 ≤ i) :
    py_slice_from xs i = xs.drop i.toNat := by
  simp only [py_slice_from]
  rw [if_neg (by omega)]
  rcases le_or_lt i (xs.length : Int) with hle | hlt
  · congr 1
    omega
  · have h1 : (min i (xs.length : Int)).toNat = xs.length := by omega
    rw [h1, List.drop_length, List.drop_eq_nil_of_le (by omega)]

/-! Claim theorems. -/

/-- Claim C1 (amended to a non-empty `task_id` argument): for every task
store and every non-empty `task_id`, if the store contains a (unique)
record with that id then `task_monitor` returns `success:true` with the
`task` field equal to exactly that record and a message; if it contains
no such record it returns `success:false` with a message and no task
field, as a reported result, never an exception. -/
theorem task_monitor_lookup (fs : FS) (tasks : List TaskRecord) (tid : String)
    (status : Option String)
    (hs : fs.store = some (StoreContent.validTasks tasks)) (hne : tid ≠ "") :
    (∀ r ∈ tasks, r.task_id = tid → (∀ x ∈ tasks, x.task_id = tid → x = r) →
      (task_monitor fs (some tid) status).2 = .ok (.taskFound r (found_message tid)))
    ∧ ((∀ r ∈ tasks, r.task_id ≠ tid) →
      (task_monitor fs (some tid) status).2 = .ok (.taskNotFound (notfound_message tid))) := by
  have htr : truthy (some tid) = true := by simp [truthy, hne]
  constructor
  · intro r hmem hid huniq
    have hfind : tasks.find? (fun t => t.task_id == tid) = some r :=
      find_eq_some_of_unique _ r tasks hmem (by simp [hid])
        (fun x hx hpx => huniq x hx (by simpa using hpx))
    simp [task_monitor, hs, read_store, task_monitor_core, htr, hfind]
  · intro hnone
    have hfind : tasks.find? (fun t => t.task_id == tid) = none := by
      rw [List.find?_eq_none]
      intro x hx
      simpa using hnone x hx
    simp [task_monitor, hs, read_store, task_monitor_core, htr, hfind]

/-- Witness for C1: looking up `task_002` in the sample store returns
exactly the sample record `task_rec_2` with `success:true`. -/
theorem task_monitor_lookup_witness :
    (task_monitor (store_fs sample_tasks) (some "task_002") none).2 =
      .ok (.taskFound task_rec_2 (found_message "task_002")) := by
  exact (task_monitor_lookup (store_fs sample_tasks) sample_tasks "task_002" none rfl
      (by decide)).1 task_rec_2 (by decide) (by decide) (by decide)

/-- Counterexample to C1 as stated: with the empty string as the given
`task_id` argument, the sample store contains no record whose id equals
the argument, yet `task_monitor` returns `success:true` (the full
listing), not the `success:false` not-found object the claim requires. -/
theorem task_monitor_lookup_cex :
    sample_tasks.all (fun t => !(t.task_id == "")) = true
    ∧ except_success (task_monitor (store_fs sample_tasks) (some "") none).2 = some true := by
  exact ⟨rfl, rfl⟩

/-- Claim C3: with neither `task_id` nor `status`, `task_monitor`
returns the full record list in stored order, `count` equal to its
length, and a summary whose `total` is the length and whose per-status
fields count the records with that status; on the bootstrapped
four-record sample the summary is `{total:4, success:1, failed:1,
running:1, pending:1}`. -/
theorem task_monitor_full_listing (fs : FS) (tasks : List TaskRecord)
    (hs : fs.store = some (StoreContent.validTasks tasks)) :
    (task_monitor fs none none).2 =
      .ok (.listing tasks tasks.length (mk_summary tasks) (listing_message tasks.length))
    ∧ (mk_summary tasks).total = tasks.length
    ∧ (mk_summary tasks).success = tasks.countP (fun t => t.status == "success")
    ∧ (mk_summary tasks).failed = tasks.countP (fun t => t.status == "failed")
    ∧ (mk_summary tasks).running = tasks.countP (fun t => t.status == "running")
    ∧ (mk_summary tasks).pending = tasks.countP (fun t => t.status == "pending")
    ∧ task_monitor empty_fs none none =
      (store_fs sample_tasks, .ok (.listing sample_tasks 4 ⟨4, 1, 1, 1, 1⟩ (listing_message 4))) := by
  refine ⟨?_, rfl, ?_, ?_, ?_, ?_, rfl⟩
  · simp [task_monitor, hs, read_store, task_monitor_core, truthy]
  all_goals rw [List.countP_eq_length_filter]
  all_goals rfl

/-- Witness for C3: listing the sample store returns all 4 records and
the summary `{total:4, success:1, failed:1, running:1, pending:1}`. -/
theorem task_monitor_full_listing_witness :
    (task_monitor (store_fs sample_tasks) none none).2 =
      .ok (.listing sample_tasks 4 ⟨4, 1, 1, 1, 1⟩ (listing_message 4)) := by
  rw [(task_monitor_full_listing (store_fs sample_tasks) sample_tasks rfl).1]
  rfl

/-- Claim C4 (amended to a non-empty `status` argument): with `task_id`
absent and a non-empty `status`, `task_monitor` returns exactly the
records whose status equals the argument (case-sensitive exact match),
in stored order, with `count` their number; an unmatched status yields
zero results without an error; on the sample store `status="failed"`
returns exactly the one record `task_rec_2`. -/
theorem task_monitor_status_filter (fs : FS) (tasks : List TaskRecord) (st : String)
    (hs : fs.store = some (StoreContent.validTasks tasks)) (hne : st ≠ "") :
    (task_monitor fs none (some st)).2 =
      .ok (.filtered (tasks.filter (fun t => t.status == st))
        (tasks.filter (fun t => t.status == st)).length
        (filtered_message (tasks.filter (fun t => t.status == st)).length st))
    ∧ (tasks.filter (fun t => t.status == st)).Sublist tasks
    ∧ (∀ t, t ∈ tasks.filter (fun t => t.status == st) ↔ t ∈ tasks ∧ t.status = st)
    ∧ ((∀ t ∈ tasks, t.status ≠ st) → tasks.filter (fun t => t.status == st) = [])
    ∧ (task_monitor (store_fs sample_tasks) none (some "failed")).2 =
      .ok (.filtered [task_rec_2] 1 (filtered_message 1 "failed")) := by
  refine ⟨?_, List.filter_sublist tasks, ?_, ?_, rfl⟩
  · simp [task_monitor, hs, read_store, task_monitor_core, truthy, hne]
  · intro t
    simp [List.mem_filter]
  · intro h
    rw [List.filter_eq_nil_iff]
    intro t ht
    simpa using h t ht

/-- Witness for C4: filtering the sample store by `status="failed"`
returns exactly the one record `task_rec_2` with count 1. -/
theorem task_monitor_status_filter_witness :
    (task_monitor (store_fs sample_tasks) none (some "failed")).2 =
      .ok (.filtered [task_rec_2] 1 (filtered_message 1 "failed")) := by
  rw [(task_monitor_status_filter (store_fs sample_tasks) sample_tasks "failed" rfl
      (by decide)).1]
  rfl

/-- Counterexample to C4 as stated: with the empty string as `status`
argument, no sample record has status equal to the argument, yet
`task_monitor` does not return the zero-record filter result — it falls
through to the full listing of all 4 records. -/
theorem task_monitor_status_filter_cex :
    sample_tasks.all (fun t => !(t.status == "")) = true
    ∧ (task_monitor (store_fs sample_tasks) none (some "")).2 =
      .ok (.listing sample_tasks 4 ⟨4, 1, 1, 1, 1⟩ (listing_message 4)) := by
  exact ⟨rfl, rfl⟩

/-- Claim C5 (amended): a `task_id` lookup that finds nothing is always
reported inline as `success:false` JSON and never raised; but a `status`
filter that yields no matching records is reported inline as
`success:true` JSON with an empty list and count 0 (also never raised),
not as `success:false`. -/
theorem task_monitor_notfound_reporting (fs : FS) (tasks : List TaskRecord)
    (tid st : String) (status : Option String)
    (hs : fs.store = some (StoreContent.validTasks tasks)) :
    (tid ≠ "" → (∀ r ∈ tasks, r.task_id ≠ tid) →
      (task_monitor fs (some tid) status).2 = .ok (.taskNotFound (notfound_message tid))
      ∧ except_success (task_monitor fs (some tid) status).2 = some false)
    ∧ (st ≠ "" → (∀ t ∈ tasks, t.status ≠ st) →
      (task_monitor fs none (some st)).2 = .ok (.filtered [] 0 (filtered_message 0 st))
      ∧ except_success (task_monitor fs none (some st)).2 = some true) := by
  constructor
  · intro hne hnone
    have htr : truthy (some tid) = true := by simp [truthy, hne]
    have hfind : tasks.find? (fun t => t.task_id == tid) = none := by
      rw [List.find?_eq_none]
      intro x hx
      simpa using hnone x hx
    have h : (task_monitor fs (some tid) status).2 =
        .ok (.taskNotFound (notfound_message tid)) := by
      simp [task_monitor, hs, read_store, task_monitor_core, htr, hfind]
    exact ⟨h, by rw [h]; rfl⟩
  · intro hne hnone
    have hnil : tasks.filter (fun t => t.status == st) = [] := by
      rw [List.filter_eq_nil_iff]
      intro t ht
      simpa using hnone t ht
    have h : (task_monitor fs none (some st)).2 =
        .ok (.filtered [] 0 (filtered_message 0 st)) := by
      simp [task_monitor, hs, read_store, task_monitor_core, truthy, hne, hnil]
    exact ⟨h, by rw [h]; rfl⟩

/-- Witness for C5: an unknown `task_id` on the sample store yields the
`success:false` not-found object; an unmatched `status` yields the
`success:true` zero-record filter object. -/
theorem task_monitor_notfound_reporting_witness :
    (task_monitor (store_fs sample_tasks) (some "task_042") none).2 =
      .ok (.taskNotFound (notfound_message "task_042"))
    ∧ (task_monitor (store_fs sample_tasks) none (some "archived")).2 =
      .ok (.filtered [] 0 (filtered_message 0 "archived")) := by
  have h := task_monitor_notfound_reporting (store_fs sample_tasks) sample_tasks
    "task_042" "archived" none rfl
  exact ⟨(h.1 (by decide) (by decide)).1, (h.2 (by decide) (by decide)).1⟩

/-- Counterexample to C5 as stated: on the sample store the status
filter `"archived"` matches no record, yet the result has
`success:true`, not the `success:false` the claim requires. -/
theorem task_monitor_notfound_reporting_cex :
    sample_tasks.all (fun t => !(t.status == "archived")) = true
    ∧ except_success (task_monitor (store_fs sample_tasks) none (some "archived")).2 =
      some true := by
  exact ⟨rfl, rfl⟩

/-- Claim C2 (amended to a positive `lines` argument): for every
existing log file and every `lines ≥ 1`, `task_log_reader` returns the
last `min lines total` lines verbatim, concatenated in original order
with newlines preserved (`String.join (readlines c) = c` makes the line
decomposition verbatim), with `log_lines` the number of returned lines;
when `lines` is at least the total line count, every line is returned. -/
theorem task_log_reader_tail (fs : FS) (tid c : String) (lines : Int)
    (hl : fs.logs tid = some c) (hpos : 1 ≤ lines) :
    (task_log_reader fs tid lines).2 =
      .ok tid (tail_lines c lines).length (String.join (tail_lines c lines))
        (log_message tid (tail_lines c lines).length)
    ∧ String.join (readlines c) = c
    ∧ (((readlines c).length : Int) ≤ lines → tail_lines c lines = readlines c) := by
  refine ⟨?_, join_readlines c, ?_⟩
  · simp only [task_log_reader, hl, read_log_content, tail_lines]
    rw [last_lines_eq _ _ hpos]
  · intro hge
    simp only [tail_lines]
    have h0 : (readlines c).length - min lines.toNat (readlines c).length = 0 := by omega
    rw [h0, List.drop_zero]

/-- Witness for C2: reading the `task_001` sample log (10 lines) with
`lines = 3` returns exactly its last 3 lines in original order. -/
theorem task_log_reader_tail_witness :
    (task_log_reader (log_fs "task_001" sample_log_1) "task_001" 3).2 =
      .ok "task_001" 3
        "[2025-06-17 08:14:00] INFO  Transformation completed\n[2025-06-17 08:15:00] INFO  Loading data to target system...\n[2025-06-17 08:15:30] INFO  Task completed successfully. Total records: 1500000\n"
        (log_message "task_001" 3) := by
  rw [(task_log_reader_tail (log_fs "task_001" sample_log_1) "task_001" sample_log_1 3 rfl
      (by decide)).1]
  rfl

set_option maxRecDepth 8192 in
/-- Counterexample to C2 as stated ("every lines argument"): reading the
10-line `task_001` sample log with `lines = 0` returns all 10 lines with
`log_lines = 10`, not the last 0 lines the claim would require. -/
theorem task_log_reader_tail_cex :
    (readlines sample_log_1).length = 10
    ∧ (task_log_reader (log_fs "task_001" sample_log_1) "task_001" 0).2 =
      .ok "task_001" 10 sample_log_1 (log_message "task_001" 10) := by
  exact ⟨rfl, rfl⟩

/-- Claim C6: for a `task_id` that is none of the three sample ids and
whose log file does not exist, `task_log_reader` returns the bare
(non-JSON) error string, unlike every other result path, which returns a
JSON `success`/`message` envelope. -/
theorem task_log_reader_unknown_id_bare (fs : FS) (tid : String) (n : Int)
    (habs : fs.logs tid = none)
    (h1 : tid ≠ "task_001") (h2 : tid ≠ "task_002") (h3 : tid ≠ "task_003") :
    task_log_reader fs tid n = (fs, .bare (log_notfound_message tid))
    ∧ LRResult.isJsonEnvelope (.bare (log_notfound_message tid)) = false
    ∧ (∀ t k c m, LRResult.isJsonEnvelope (.ok t k c m) = true)
    ∧ (∀ m, LRResult.isJsonEnvelope (.err m) = true) := by
  refine ⟨?_, rfl, fun _ _ _ _ => rfl, fun _ => rfl⟩
  simp [task_log_reader, habs, sample_logs, h1, h2, h3]

/-- Witness for C6: requesting the log of `task_042` on an empty
filesystem returns the bare error string. -/
theorem task_log_reader_unknown_id_bare_witness :
    task_log_reader empty_fs "task_042" 100 =
      (empty_fs, .bare (log_notfound_message "task_042")) := by
  exact (task_log_reader_unknown_id_bare empty_fs "task_042" 100 rfl
    (by decide) (by decide) (by decide)).1

/-- Claim C7: bootstrap is idempotent and the read paths have no other
side effects: for either function a second invocation in succession
leaves the filesystem exactly as after the first call and returns the
same result; after a `task_monitor` call the store file is present, and
after a `task_log_reader` call for a sample id its log file is present. -/
theorem bootstrap_idempotent :
    (∀ (fs : FS) (task_id status : Option String),
      task_monitor (task_monitor fs task_id status).1 task_id status =
        task_monitor fs task_id status)
    ∧ (∀ (fs : FS) (tid : String) (n : Int),
      task_log_reader (task_log_reader fs tid n).1 tid n = task_log_reader fs tid n)
    ∧ (∀ (fs : FS) (task_id status : Option String),
      (task_monitor fs task_id status).1.store ≠ none)
    ∧ (∀ (fs : FS) (n : Int),
      ((task_log_reader fs "task_001" n).1.logs "task_001").isSome = true
      ∧ ((task_log_reader fs "task_002" n).1.logs "task_002").isSome = true
      ∧ ((task_log_reader fs "task_003" n).1.logs "task_003").isSome = true) := by
  refine ⟨fun fs a b => ?_, fun fs tid n => ?_, fun fs a b => ?_, fun fs n => ?_⟩
  · rcases hs : fs.store with _ | c
    · simp [task_monitor, hs, read_store]
    · cases c <;> simp [task_monitor, hs, read_store]
  · rcases hl : fs.logs tid with _ | c
    · rcases hsl : sample_logs tid with _ | s <;>
        simp [task_log_reader, hl, hsl]
    · simp [task_log_reader, hl]
  · rcases hs : fs.store with _ | c
    · simp [task_monitor, hs, read_store]
    · cases c <;> simp [task_monitor, hs, read_store]
  · refine ⟨?_, ?_, ?_⟩
    · rcases hl : fs.logs "task_001" with _ | c
      · simp [task_log_reader, hl, sample_logs]
      · simp [task_log_reader, hl]
    · rcases hl : fs.logs "task_002" with _ | c
      · simp [task_log_reader, hl, sample_logs]
      · simp [task_log_reader, hl]
    · rcases hl : fs.logs "task_003" with _ | c
      · simp [task_log_reader, hl, sample_logs]
      · simp [task_log_reader, hl]

/-- Claim C8: a store file whose content is not valid JSON makes
`task_monitor` fail with a propagated parse error: the exception escapes
(no `success:false` result is produced), and the file is untouched. -/
theorem task_monitor_malformed_propagates (fs : FS) (raw : String)
    (task_id status : Option String)
    (hs : fs.store = some (StoreContent.malformed raw)) :
    task_monitor fs task_id status = (fs, .error s!"json.JSONDecodeError: {raw}")
    ∧ except_success (task_monitor fs task_id status).2 = none := by
  have h : task_monitor fs task_id status = (fs, .error s!"json.JSONDecodeError: {raw}") := by
    simp [task_monitor, hs, read_store]
  exact ⟨h, by rw [h]; rfl⟩

/-- Witness for C8: a malformed store file makes the call return the
propagated parse error with the filesystem unchanged. -/
theorem task_monitor_malformed_propagates_witness :
    task_monitor ⟨some (StoreContent.malformed "not valid json"), fun _ => none⟩ none none =
      (⟨some (StoreContent.malformed "not valid json"), fun _ => none⟩,
        .error "json.JSONDecodeError: not valid json") := by
  rw [(task_monitor_malformed_propagates
    ⟨some (StoreContent.malformed "not valid json"), fun _ => none⟩
    "not valid json" none none rfl).1]
  rfl

/-- Claim C9: `task_monitor` treats an empty-string `task_id` exactly
like an absent one (it is never compared against any record id; the call
falls through to the status filter or the full listing), and likewise an
empty-string `status`. -/
theorem empty_string_args_ignored :
    (∀ (fs : FS) (status : Option String),
      task_monitor fs (some "") status = task_monitor fs none status)
    ∧ (∀ (fs : FS) (task_id : Option String),
      task_monitor fs task_id (some "") = task_monitor fs task_id none) := by
  have hcore1 : ∀ tasks status,
      task_monitor_core tasks (some "") status = task_monitor_core tasks none status := by
    intro tasks status
    simp [task_monitor_core, truthy]
  have hcore2 : ∀ tasks task_id,
      task_monitor_core tasks task_id (some "") = task_monitor_core tasks task_id none := by
    intro tasks tid
    simp [task_monitor_core, truthy]
  constructor
  · intro fs status
    rcases hs : fs.store with _ | c
    · simp [task_monitor, hs, read_store, hcore1]
    · cases c <;> simp [task_monitor, hs, read_store, hcore1]
  · intro fs tid
    rcases hs : fs.store with _ | c
    · simp [task_monitor, hs, read_store, hcore2]
    · cases c <;> simp [task_monitor, hs, read_store, hcore2]

/-- Claim C10: on an existing log file, `lines = 0` returns every line
(`log_lines` = total line count), not zero lines; and a negative `lines`
with `|lines|` below the total returns the file with its first `|lines|`
lines removed, not a suffix. -/
theorem task_log_reader_zero_and_negative (fs : FS) (tid c : String) :
    (fs.logs tid = some c →
      (task_log_reader fs tid 0).2 =
        .ok tid (readlines c).length (String.join (readlines c))
          (log_message tid (readlines c).length)
      ∧ String.join (readlines c) = c)
    ∧ (∀ k : Int, fs.logs tid = some c → 0 < k → k < ((readlines c).length : Int) →
      (task_log_reader fs tid (-k)).2 =
        .ok tid ((readlines c).drop k.toNat).length
          (String.join ((readlines c).drop k.toNat))
          (log_message tid ((readlines c).drop k.toNat).length)) := by
  constructor
  · intro hl
    refine ⟨?_, join_readlines c⟩
    simp only [task_log_reader, hl, read_log_content]
    have hslice : (if (0 : Int) < ((readlines c).length : Int)
        then py_slice_from (readlines c) (-(0 : Int)) else readlines c) = readlines c := by
      split
      · rw [neg_zero, py_slice_from_nonneg _ 0 le_rfl, Int.toNat_zero, List.drop_zero]
      · rfl
    rw [hslice]
  · intro k hl hk0 hklen
    simp only [task_log_reader, hl, read_log_content]
    have hguard : -k < ((readlines c).length : Int) := by omega
    rw [if_pos hguard, neg_neg, py_slice_from_nonneg _ k (by omega)]

/-- Witness for C10: on a three-line log, `lines = 0` returns all 3
lines; on a four-line log, `lines = -1` returns the last 3 lines (the
file minus its first line). -/
theorem task_log_reader_zero_and_negative_witness :
    (task_log_reader (log_fs "t" "a\nb\nc\n") "t" 0).2 =
      .ok "t" 3 "a\nb\nc\n" (log_message "t" 3)
    ∧ (task_log_reader (log_fs "t" "a\nb\nc\nd\n") "t" (-1)).2 =
      .ok "t" 3 "b\nc\nd\n" (log_message "t" 3) := by
  constructor
  · rw [((task_log_reader_zero_and_negative (log_fs "t" "a\nb\nc\n") "t" "a\nb\nc\n").1 rfl).1]
    rfl
  · rw [(task_log_reader_zero_and_negative (log_fs "t" "a\nb\nc\nd\n") "t" "a\nb\nc\nd\n").2
      1 rfl (by decide) (by decide)]
    rfl

end DataOps
